import Mathlib

/-
Verification of the UEFI System Table bootstrap core
(qiling/os/uefi/st.py): layout planning, configuration-table
installation bookkeeping, and the root System Table write.

Guest memory is modelled at two granularities, matching how the code
touches it: raw payload bytes written through `ql.mem.write` are a byte
store `Nat → Nat`, while the structured records placed by external
serializers (the configuration-table entry array and the root
EFI_SYSTEM_TABLE record, whose field layout lives outside this core)
are structured views `Nat → Option _`.
-/

set_option autoImplicit false

namespace UefiSt

/-- The root System Table record as built by `initialize` in st.py:
Runtime Services pointer, Boot Services pointer, number of
configuration-table entries, and the configuration-table array pointer. -/
structure SystemTableRecord where
  RuntimeServices : Nat
  BootServices : Nat
  NumberOfTableEntries : Nat
  ConfigurationTable : Nat
deriving Repr, DecidableEq

/-- A profile section as consumed by `install_configuration_table`: a
vendor identifier (the `Guid` key) and an optional hex-encoded payload
(the `TableData` key, which a section may lack). -/
structure ProfileSection where
  Guid : String
  TableData : Option String
deriving Repr, DecidableEq

/-- A profile maps section names to sections; a missing name raises in
the code (KeyError) and is `none` here. -/
def Profile : Type := String → Option ProfileSection

/-- Session-scoped loader state: the Registry's ordered entry list, the
array/data-region pointers and the bump cursor (the
`ql.loader.efi_conf_table_*` attributes set up by `initialize`),
together with the guest-memory views the bootstrap writes into. -/
structure LoaderState where
  efi_conf_table_array : List (String × Nat)
  efi_conf_table_array_ptr : Nat
  efi_conf_table_data_ptr : Nat
  efi_conf_table_data_next_ptr : Nat
  mem : Nat → Nat
  arraySlots : Nat → Option (String × Nat)
  systemTables : Nat → Option SystemTableRecord

/-- Byte-store semantics of `ql.mem.write(addr, data)`: each byte of
`data` lands at its offset from `addr`; all other addresses keep their
old content. -/
def writeBytes (m : Nat → Nat) (addr : Nat) (data : List Nat) : Nat → Nat :=
  fun a => if addr ≤ a ∧ a < addr + data.length then data.getD (a - addr) 0 else m a

/-- Value of one hex digit, accepting both cases, as `binascii` does. -/
def hexDigitVal (c : Char) : Option Nat :=
  if '0' ≤ c ∧ c ≤ '9' then some (c.toNat - '0'.toNat)
  else if 'a' ≤ c ∧ c ≤ 'f' then some (c.toNat - 'a'.toNat + 10)
  else if 'A' ≤ c ∧ c ≤ 'F' then some (c.toNat - 'A'.toNat + 10)
  else none

/-- Pairwise hex decoding of a character list: `binascii.unhexlify`
fails (raises `binascii.Error`) on an odd-length string or on any
non-hex digit; both failures are `none` here. -/
def unhexChars : List Char → Option (List Nat)
  | [] => some []
  | [_] => none
  | c1 :: c2 :: rest =>
    match hexDigitVal c1, hexDigitVal c2, unhexChars rest with
    | some hi, some lo, some tail => some ((16 * hi + lo) :: tail)
    | _, _, _ => none

/-- Semantics of `binascii.unhexlify` on a profile payload string. -/
def unhexlify (s : String) : Option (List Nat) := unhexChars s.data

/-- The ways `install_configuration_table` can raise:
`ConfigurationNotFound` is the KeyError on a missing profile section,
`PayloadMissing` the KeyError on a section without a `TableData` key,
and `PayloadDecodeError` the `binascii.Error` on a malformed payload.
The exception propagates before any state mutation, so the caller's
`LoaderState` is exactly the pre-call one on every error. -/
inductive InstallError where
  | ConfigurationNotFound
  | PayloadMissing
  | PayloadDecodeError
deriving Repr, DecidableEq

/-- Modelled from the spec: `CoreInstallConfigurationTable` is defined
in `qiling/os/uefi/utils.py`, which is not among the provided sources.
Per the spec (§4.3 step 4) it appends the (identifier, pointer) pair to
the Registry's ordered list and writes the same pair into the on-memory
array at index equal to the list length before the append; per §4.3's
error conditions and §9, the baseline performs no capacity check. -/
def CoreInstallConfigurationTable (st : LoaderState) (guid : String) (table : Nat) :
    LoaderState :=
  { st with
    efi_conf_table_array := st.efi_conf_table_array ++ [(guid, table)]
    arraySlots := fun i =>
      if i = st.efi_conf_table_array.length then some (guid, table)
      else st.arraySlots i }

/-- Embedding of `install_configuration_table (ql, key, table)` from
st.py. The profile section named `key` supplies the vendor Guid; with
no explicit `table` address the hex payload is decoded, written at the
bump cursor, and the cursor becomes the table pointer and advances by
the payload length; with an explicit address nothing is decoded or
written. Either way the entry is handed to
`CoreInstallConfigurationTable`. -/
def install_configuration_table (profile : Profile) (st : LoaderState)
    (key : String) (table : Option Nat) : Except InstallError LoaderState :=
  match profile key with
  | none => .error .ConfigurationNotFound
  | some cfgtable =>
    match table with
    | some t => .ok (CoreInstallConfigurationTable st cfgtable.Guid t)
    | none =>
      match cfgtable.TableData with
      | none => .error .PayloadMissing
      | some payload =>
        match unhexlify payload with
        | none => .error .PayloadDecodeError
        | some data =>
          let t := st.efi_conf_table_data_next_ptr
          let st1 : LoaderState :=
            { st with
              mem := writeBytes st.mem t data
              efi_conf_table_data_next_ptr :=
                st.efi_conf_table_data_next_ptr + data.length }
          .ok (CoreInstallConfigurationTable st1 cfgtable.Guid t)

/-- The fixed table sizes used by the Layout Planner. The concrete
values are `EFI_SYSTEM_TABLE.sizeof()`, `EFI_BOOT_SERVICES.sizeof()`,
`EFI_RUNTIME_SERVICES.sizeof()`, `EFI_DXE_SERVICES.sizeof()` and
`EFI_CONFIGURATION_TABLE.sizeof()` from modules outside the provided
sources, so the layout is parameterized over them. -/
structure Sizes where
  systemTable : Nat
  bootServices : Nat
  runtimeServices : Nat
  dxeServices : Nat
  configurationTable : Nat
deriving Repr, DecidableEq

/-- Boot services base: `gBS = gST + EFI_SYSTEM_TABLE.sizeof()`. -/
def gBS_of (sz : Sizes) (gST : Nat) : Nat := gST + sz.systemTable

/-- Runtime services base: `gRT = gBS + EFI_BOOT_SERVICES.sizeof()`. -/
def gRT_of (sz : Sizes) (gST : Nat) : Nat := gBS_of sz gST + sz.bootServices

/-- DXE services base: `gDS = gRT + EFI_RUNTIME_SERVICES.sizeof()`. -/
def gDS_of (sz : Sizes) (gST : Nat) : Nat := gRT_of sz gST + sz.runtimeServices

/-- Configuration-table array base: `cfg = gDS + EFI_DXE_SERVICES.sizeof()`. -/
def cfg_of (sz : Sizes) (gST : Nat) : Nat := gDS_of sz gST + sz.dxeServices

/-- Configuration-table data region:
`conf_data = cfg + EFI_CONFIGURATION_TABLE.sizeof() * 100`. -/
def conf_data_of (sz : Sizes) (gST : Nat) : Nat :=
  cfg_of sz gST + sz.configurationTable * 100

/-- Modelled from the spec: `EFI_SYSTEM_TABLE().saveTo(ql, gST)` uses
the record serializer from `qiling/os/uefi/UefiSpec.py`, which is not
among the provided sources. Per §4.4 it persists the finished root
record to guest memory at the given address; recorded here as a
structured write. -/
def saveTo (st : LoaderState) (record : SystemTableRecord) (addr : Nat) :
    LoaderState :=
  { st with
    systemTables := fun a => if a = addr then some record else st.systemTables a }

/-- Result of a successful bootstrap: the final loader state and the
root record that was written. -/
structure InitResult where
  state : LoaderState
  record : SystemTableRecord

/-- The loader state as set up by the bookkeeping block of `initialize`
in st.py: empty Registry list, array pointer at `cfg`, data pointer and
bump cursor both at `conf_data`, and nothing yet placed in the
structured memory views. -/
def st0_of (sz : Sizes) (mem0 : Nat → Nat) (gST : Nat) : LoaderState :=
  { efi_conf_table_array := []
    efi_conf_table_array_ptr := cfg_of sz gST
    efi_conf_table_data_ptr := conf_data_of sz gST
    efi_conf_table_data_next_ptr := conf_data_of sz gST
    mem := mem0
    arraySlots := fun _ => none
    systemTables := fun _ => none }

/-- Embedding of `initialize (ql, gST)` from st.py (the name
is adjusted because Lean reserves the original). The external
sub-table populators `bs.initialize`, `rt.initialize`, `ds.initialize`
only fill the opaque sub-table regions (§4.2) and touch none of the
state modelled here, so they are elided. The Registry starts empty with
both data pointers at `conf_data`; the two default entries are
installed (`HOB_LIST` from profile payload, then `DXE_SERVICE_TABLE`
at the explicit address `gDS`); finally the root record is assembled
and saved at `gST`. -/
def st_init (sz : Sizes) (profile : Profile) (mem0 : Nat → Nat) (gST : Nat) :
    Except InstallError InitResult :=
  let gBS := gBS_of sz gST
  let gRT := gRT_of sz gST
  let gDS := gDS_of sz gST
  let cfg := cfg_of sz gST
  let st0 : LoaderState := st0_of sz mem0 gST
  match install_configuration_table profile st0 "HOB_LIST" none with
  | .error e => .error e
  | .ok st1 =>
    match install_configuration_table profile st1 "DXE_SERVICE_TABLE" (some gDS) with
    | .error e => .error e
    | .ok st2 =>
      let record : SystemTableRecord :=
        { RuntimeServices := gRT
          BootServices := gBS
          NumberOfTableEntries := st2.efi_conf_table_array.length
          ConfigurationTable := cfg }
      .ok { state := saveTo st2 record gST, record := record }

/-! ## Forward evaluation lemmas for `install_configuration_table` -/

/-- A missing profile section fails the lookup before anything else. -/
theorem install_eq_of_not_found (profile : Profile) (st : LoaderState)
    (key : String) (t : Option Nat) (hp : profile key = none) :
    install_configuration_table profile st key t =
      .error .ConfigurationNotFound := by
  simp [install_configuration_table, hp]

/-- With an explicit address the entry goes straight to
`CoreInstallConfigurationTable`. -/
theorem install_eq_of_explicit (profile : Profile) (st : LoaderState)
    (key : String) (sec : ProfileSection) (t : Nat)
    (hp : profile key = some sec) :
    install_configuration_table profile st key (some t) =
      .ok (CoreInstallConfigurationTable st sec.Guid t) := by
  simp [install_configuration_table, hp]

/-- Without an explicit address and with a section lacking a payload,
the `TableData` lookup fails. -/
theorem install_eq_of_no_payload (profile : Profile) (st : LoaderState)
    (key : String) (sec : ProfileSection)
    (hp : profile key = some sec) (hd : sec.TableData = none) :
    install_configuration_table profile st key none = .error .PayloadMissing := by
  simp [install_configuration_table, hp, hd]

/-- Without an explicit address and with a malformed payload, decoding
fails before any state mutation. -/
theorem install_eq_of_bad_payload (profile : Profile) (st : LoaderState)
    (key : String) (sec : ProfileSection) (payload : String)
    (hp : profile key = some sec) (hd : sec.TableData = some payload)
    (hu : unhexlify payload = none) :
    install_configuration_table profile st key none =
      .error .PayloadDecodeError := by
  simp [install_configuration_table, hp, hd, hu]

/-- Without an explicit address and with a well-formed payload, the
bytes are written at the bump cursor, the cursor advances by their
count, and the pre-call cursor becomes the table pointer. -/
theorem install_eq_of_payload (profile : Profile) (st : LoaderState)
    (key : String) (sec : ProfileSection) (payload : String) (data : List Nat)
    (hp : profile key = some sec) (hd : sec.TableData = some payload)
    (hu : unhexlify payload = some data) :
    install_configuration_table profile st key none =
      .ok (CoreInstallConfigurationTable
        { st with
          mem := writeBytes st.mem st.efi_conf_table_data_next_ptr data
          efi_conf_table_data_next_ptr :=
            st.efi_conf_table_data_next_ptr + data.length }
        sec.Guid st.efi_conf_table_data_next_ptr) := by
  simp [install_configuration_table, hp, hd, hu]

/-! ## Inversion lemmas -/

/-- A successful explicit-address install came from a found section and
is exactly the core append. -/
theorem install_some_ok_inv (profile : Profile) (st : LoaderState)
    (key : String) (t : Nat) (st' : LoaderState)
    (h : install_configuration_table profile st key (some t) = .ok st') :
    ∃ sec, profile key = some sec ∧
      st' = CoreInstallConfigurationTable st sec.Guid t := by
  cases hp : profile key with
  | none => rw [install_eq_of_not_found profile st key (some t) hp] at h; cases h
  | some sec =>
    rw [install_eq_of_explicit profile st key sec t hp] at h
    cases h
    exact ⟨sec, rfl, rfl⟩

/-- A successful payload-copy install came from a found section with a
well-formed payload, wrote it at the cursor and advanced the cursor. -/
theorem install_none_ok_inv (profile : Profile) (st : LoaderState)
    (key : String) (st' : LoaderState)
    (h : install_configuration_table profile st key none = .ok st') :
    ∃ sec payload data,
      profile key = some sec ∧ sec.TableData = some payload ∧
      unhexlify payload = some data ∧
      st' = CoreInstallConfigurationTable
        { st with
          mem := writeBytes st.mem st.efi_conf_table_data_next_ptr data
          efi_conf_table_data_next_ptr :=
            st.efi_conf_table_data_next_ptr + data.length }
        sec.Guid st.efi_conf_table_data_next_ptr := by
  cases hp : profile key with
  | none => rw [install_eq_of_not_found profile st key none hp] at h; cases h
  | some sec =>
    cases hd : sec.TableData with
    | none => rw [install_eq_of_no_payload profile st key sec hp hd] at h; cases h
    | some payload =>
      cases hu : unhexlify payload with
      | none =>
        rw [install_eq_of_bad_payload profile st key sec payload hp hd hu] at h
        cases h
      | some data =>
        rw [install_eq_of_payload profile st key sec payload data hp hd hu] at h
        cases h
        exact ⟨sec, payload, data, rfl, hd, hu, rfl⟩

/-- Any successful install appends one pair to the list, mirrors it
into the next array slot, and leaves the other slots, the array
pointer, the data-region base and the saved root records untouched. -/
theorem install_ok_inv (profile : Profile) (st : LoaderState) (key : String)
    (t : Option Nat) (st' : LoaderState)
    (h : install_configuration_table profile st key t = .ok st') :
    ∃ guid ptr,
      st'.efi_conf_table_array = st.efi_conf_table_array ++ [(guid, ptr)] ∧
      st'.arraySlots = (fun i =>
        if i = st.efi_conf_table_array.length then some (guid, ptr)
        else st.arraySlots i) ∧
      st'.efi_conf_table_array_ptr = st.efi_conf_table_array_ptr ∧
      st'.efi_conf_table_data_ptr = st.efi_conf_table_data_ptr ∧
      st'.systemTables = st.systemTables := by
  cases t with
  | some t =>
    obtain ⟨sec, hp, rfl⟩ := install_some_ok_inv profile st key t st' h
    exact ⟨sec.Guid, t, rfl, rfl, rfl, rfl, rfl⟩
  | none =>
    obtain ⟨sec, payload, data, hp, hd, hu, rfl⟩ :=
      install_none_ok_inv profile st key st' h
    exact ⟨sec.Guid, st.efi_conf_table_data_next_ptr, rfl, rfl, rfl, rfl, rfl⟩

/-! ## Byte-store lemmas -/

/-- A write places each payload byte at its offset from the base. -/
theorem writeBytes_at (m : Nat → Nat) (addr : Nat) (data : List Nat) (j : Nat)
    (hj : j < data.length) :
    writeBytes m addr data (addr + j) = data.getD j 0 := by
  unfold writeBytes
  rw [if_pos ⟨Nat.le_add_right _ _, by omega⟩]
  congr 1
  omega

/-- A write leaves every address outside the written range unchanged. -/
theorem writeBytes_outside (m : Nat → Nat) (addr : Nat) (data : List Nat)
    (a : Nat) (h : a < addr ∨ addr + data.length ≤ a) :
    writeBytes m addr data a = m a := by
  unfold writeBytes
  rw [if_neg]
  omega

/-! ## The list/array mirroring invariant -/

/-- Every index below the Registry list length holds the corresponding
list entry in the on-memory array view. -/
def mirrors (st : LoaderState) : Prop :=
  ∀ i, i < st.efi_conf_table_array.length →
    st.arraySlots i = st.efi_conf_table_array[i]?

/-- The freshly set-up bootstrap state has an empty Registry, so it
mirrors vacuously. -/
theorem mirrors_st0 (sz : Sizes) (mem0 : Nat → Nat) (gST : Nat) :
    mirrors (st0_of sz mem0 gST) := by
  intro i hi
  simp [st0_of] at hi

/-- A successful install preserves the mirroring invariant: the new
entry lands both at the end of the list and in the matching slot. -/
theorem mirrors_install (profile : Profile) (st : LoaderState) (key : String)
    (t : Option Nat) (st' : LoaderState)
    (h : install_configuration_table profile st key t = .ok st')
    (hm : mirrors st) : mirrors st' := by
  obtain ⟨guid, ptr, hl, ha, -, -, -⟩ := install_ok_inv profile st key t st' h
  intro i hi
  rw [hl] at hi
  rw [List.length_append, List.length_singleton] at hi
  simp only [hl, ha]
  by_cases hic : i = st.efi_conf_table_array.length
  · subst hic
    rw [if_pos rfl, List.getElem?_concat_length]
  · have hi' : i < st.efi_conf_table_array.length := by omega
    rw [if_neg hic, hm i hi', List.getElem?_append_left hi']

/-! ## Inversion of the bootstrap sequence -/

/-- A successful bootstrap decomposes into the two default installs
from the fresh state, the root record assembled from the planned
addresses and the final Registry length, and the save of that record
at `gST`. -/
theorem st_init_ok_inv (sz : Sizes) (profile : Profile) (mem0 : Nat → Nat)
    (gST : Nat) (r : InitResult)
    (h : st_init sz profile mem0 gST = .ok r) :
    ∃ st1 st2,
      install_configuration_table profile (st0_of sz mem0 gST)
        "HOB_LIST" none = .ok st1 ∧
      install_configuration_table profile st1 "DXE_SERVICE_TABLE"
        (some (gDS_of sz gST)) = .ok st2 ∧
      r.record = { RuntimeServices := gRT_of sz gST
                   BootServices := gBS_of sz gST
                   NumberOfTableEntries := st2.efi_conf_table_array.length
                   ConfigurationTable := cfg_of sz gST } ∧
      r.state = saveTo st2 r.record gST := by
  simp only [st_init] at h
  cases h1 : install_configuration_table profile (st0_of sz mem0 gST)
      "HOB_LIST" none with
  | error e => rw [h1] at h; cases h
  | ok st1 =>
    rw [h1] at h
    dsimp only [] at h
    cases h2 : install_configuration_table profile st1 "DXE_SERVICE_TABLE"
        (some (gDS_of sz gST)) with
    | error e => rw [h2] at h; cases h
    | ok st2 =>
      rw [h2] at h
      cases h
      exact ⟨st1, st2, rfl, h2, rfl, rfl⟩

/-! ## Concrete fixtures used by the witnesses -/

/-- The table sizes of the spec's worked example; the entry size is the
64-bit `EFI_CONFIGURATION_TABLE` size. -/
def exSizes : Sizes :=
  { systemTable := 0x80
    bootServices := 0x140
    runtimeServices := 0x78
    dxeServices := 0x58
    configurationTable := 0x18 }

/-- A profile holding the two default sections: `HOB_LIST` with an
inline payload of bytes `AA BB`, and `DXE_SERVICE_TABLE` with only a
vendor identifier. -/
def exProfile : Profile := fun key =>
  if key = "HOB_LIST" then
    some { Guid := "hob-guid", TableData := some "AABB" }
  else if key = "DXE_SERVICE_TABLE" then
    some { Guid := "dxe-guid", TableData := none }
  else none

/-- A mid-session state: one entry already installed, bump cursor at
`0x1000`, zeroed byte memory. -/
def exSt : LoaderState :=
  { efi_conf_table_array := [("first", 0x500)]
    efi_conf_table_array_ptr := 0x10000290
    efi_conf_table_data_ptr := 0x10000BF0
    efi_conf_table_data_next_ptr := 0x1000
    mem := fun _ => 0
    arraySlots := fun i => if i = 0 then some ("first", 0x500) else none
    systemTables := fun _ => none }

/-- The state produced by the payload-copy install of `HOB_LIST` on the
example state. -/
def exInstallNone : LoaderState :=
  match install_configuration_table exProfile exSt "HOB_LIST" none with
  | .ok st => st
  | .error _ => exSt

theorem exInstallNone_ok :
    install_configuration_table exProfile exSt "HOB_LIST" none =
      .ok exInstallNone := rfl

/-- The state produced by the explicit-address install of
`DXE_SERVICE_TABLE` on the example state. -/
def exInstallSome : LoaderState :=
  match install_configuration_table exProfile exSt "DXE_SERVICE_TABLE"
      (some 0x10000238) with
  | .ok st => st
  | .error _ => exSt

theorem exInstallSome_ok :
    install_configuration_table exProfile exSt "DXE_SERVICE_TABLE"
      (some 0x10000238) = .ok exInstallSome := rfl

/-- The bootstrap result on the example profile and sizes at the spec's
example base address. -/
def exInitResult : InitResult :=
  match st_init exSizes exProfile (fun _ => 0) 0x10000000 with
  | .ok r => r
  | .error _ =>
    { state := st0_of exSizes (fun _ => 0) 0x10000000
      record := { RuntimeServices := 0, BootServices := 0
                  NumberOfTableEntries := 0, ConfigurationTable := 0 } }

theorem exInit_ok :
    st_init exSizes exProfile (fun _ => 0) 0x10000000 = .ok exInitResult := rfl

/-- A Registry already filled to the 100-entry array capacity. -/
def fullSt : LoaderState :=
  { efi_conf_table_array := List.replicate 100 ("full", 0)
    efi_conf_table_array_ptr := 0x10000290
    efi_conf_table_data_ptr := 0x10000BF0
    efi_conf_table_data_next_ptr := 0x10000BF0
    mem := fun _ => 0
    arraySlots := fun _ => none
    systemTables := fun _ => none }

/-- The state produced by installing one more entry on the full state. -/
def fullInstall : LoaderState :=
  match install_configuration_table exProfile fullSt "DXE_SERVICE_TABLE"
      (some 7) with
  | .ok st => st
  | .error _ => fullSt

theorem fullInstall_ok :
    install_configuration_table exProfile fullSt "DXE_SERVICE_TABLE" (some 7) =
      .ok fullInstall := rfl

/-- A profile whose `HOB_LIST` payload is not valid hex. -/
def badProfile : Profile := fun key =>
  if key = "HOB_LIST" then some { Guid := "hob-guid", TableData := some "ZZ" }
  else none

/-! ## The claims -/

/-- C1: every successful `install_configuration_table` call appends
exactly one (identifier, pointer) entry to the Registry's ordered list
and writes the same pair into the on-memory array at the index equal to
the list length before the append; consequently, after bootstrap the
array entry at every index `i` equals `Registry.list[i]` and the root
record's entry count equals the Registry length. -/
theorem install_mirrors_registry :
    (∀ (profile : Profile) (st : LoaderState) (key : String) (t : Option Nat)
        (st' : LoaderState),
      install_configuration_table profile st key t = .ok st' →
      st'.efi_conf_table_array.length = st.efi_conf_table_array.length + 1 ∧
      st'.efi_conf_table_array.take st.efi_conf_table_array.length
        = st.efi_conf_table_array ∧
      st'.arraySlots st.efi_conf_table_array.length
        = st'.efi_conf_table_array[st.efi_conf_table_array.length]?) ∧
    (∀ (sz : Sizes) (profile : Profile) (mem0 : Nat → Nat) (gST : Nat)
        (r : InitResult),
      st_init sz profile mem0 gST = .ok r →
      r.record.NumberOfTableEntries = r.state.efi_conf_table_array.length ∧
      ∀ i, i < r.state.efi_conf_table_array.length →
        r.state.arraySlots i = r.state.efi_conf_table_array[i]?) := by
  constructor
  · intro profile st key t st' h
    obtain ⟨guid, ptr, hl, ha, -, -, -⟩ := install_ok_inv profile st key t st' h
    refine ⟨?_, ?_, ?_⟩
    · rw [hl, List.length_append, List.length_singleton]
    · rw [hl, List.take_left]
    · simp [hl, ha]
  · intro sz profile mem0 gST r h
    obtain ⟨st1, st2, h1, h2, hrec, hstate⟩ := st_init_ok_inv sz profile mem0 gST r h
    have hm2 : mirrors st2 :=
      mirrors_install _ _ _ _ _ h2
        (mirrors_install _ _ _ _ _ h1 (mirrors_st0 sz mem0 gST))
    constructor
    · rw [hrec, hstate]; rfl
    · intro i hi
      rw [hstate] at hi ⊢
      exact hm2 i hi

/-- C1 witness: on the example bootstrap, the written entry count
matches the final Registry length and both array slots mirror the
Registry list. -/
theorem install_mirrors_registry_witness :
    exInitResult.record.NumberOfTableEntries
      = exInitResult.state.efi_conf_table_array.length ∧
    exInitResult.state.arraySlots 0
      = exInitResult.state.efi_conf_table_array[0]? ∧
    exInitResult.state.arraySlots 1
      = exInitResult.state.efi_conf_table_array[1]? := by
  have h := install_mirrors_registry.2 exSizes exProfile (fun _ => 0)
    0x10000000 exInitResult exInit_ok
  exact ⟨h.1, h.2 0 (by decide), h.2 1 (by decide)⟩

/-- C2: installing without an explicit address succeeds exactly by
writing the decoded payload bytes at the pre-call cursor, using that
pre-call cursor as the installed table pointer, and advancing the
cursor by the decoded byte length; memory outside the written range is
untouched. -/
theorem install_payload_copy (profile : Profile) (st : LoaderState)
    (key : String) (sec : ProfileSection) (payload : String) (data : List Nat)
    (hp : profile key = some sec) (hd : sec.TableData = some payload)
    (hu : unhexlify payload = some data) :
    install_configuration_table profile st key none =
      .ok (CoreInstallConfigurationTable
        { st with
          mem := writeBytes st.mem st.efi_conf_table_data_next_ptr data
          efi_conf_table_data_next_ptr :=
            st.efi_conf_table_data_next_ptr + data.length }
        sec.Guid st.efi_conf_table_data_next_ptr) ∧
    ∀ st', install_configuration_table profile st key none = .ok st' →
      st'.efi_conf_table_array = st.efi_conf_table_array ++
        [(sec.Guid, st.efi_conf_table_data_next_ptr)] ∧
      st'.efi_conf_table_data_next_ptr
        = st.efi_conf_table_data_next_ptr + data.length ∧
      (∀ j, j < data.length →
        st'.mem (st.efi_conf_table_data_next_ptr + j) = data.getD j 0) ∧
      (∀ a, a < st.efi_conf_table_data_next_ptr ∨
            st.efi_conf_table_data_next_ptr + data.length ≤ a →
        st'.mem a = st.mem a) := by
  have heq := install_eq_of_payload profile st key sec payload data hp hd hu
  refine ⟨heq, ?_⟩
  intro st' h
  rw [heq] at h
  cases h
  refine ⟨rfl, rfl, ?_, ?_⟩
  · intro j hj
    exact writeBytes_at st.mem st.efi_conf_table_data_next_ptr data j hj
  · intro a ha
    exact writeBytes_outside st.mem st.efi_conf_table_data_next_ptr data a ha

/-- C2 witness: installing `HOB_LIST` (payload bytes `AA BB`) at cursor
`0x1000` writes `0xAA` at `0x1000` and `0xBB` at `0x1001`, installs
table pointer `0x1000`, advances the cursor to `0x1002`, and leaves
`0x0FFF` untouched. -/
theorem install_payload_copy_witness :
    exInstallNone.efi_conf_table_array = [("first", 0x500), ("hob-guid", 0x1000)] ∧
    exInstallNone.efi_conf_table_data_next_ptr = 0x1002 ∧
    exInstallNone.mem 0x1000 = 0xAA ∧
    exInstallNone.mem 0x1001 = 0xBB ∧
    exInstallNone.mem 0x0FFF = 0 := by
  have h := (install_payload_copy exProfile exSt "HOB_LIST"
      { Guid := "hob-guid", TableData := some "AABB" } "AABB" [0xAA, 0xBB]
      rfl rfl rfl).2 exInstallNone exInstallNone_ok
  exact ⟨h.1, h.2.1, h.2.2.1 0 (by decide), h.2.2.1 1 (by decide),
    h.2.2.2 0x0FFF (Or.inl (by decide))⟩

/-- C3: installing with an explicit address leaves the payload cursor
and the byte memory unchanged and appends the explicit address as the
installed table pointer, mirrored into the next array slot. -/
theorem install_explicit_address (profile : Profile) (st : LoaderState)
    (key : String) (sec : ProfileSection) (addr : Nat)
    (hp : profile key = some sec) :
    install_configuration_table profile st key (some addr) =
      .ok (CoreInstallConfigurationTable st sec.Guid addr) ∧
    ∀ st', install_configuration_table profile st key (some addr) = .ok st' →
      st'.efi_conf_table_data_next_ptr = st.efi_conf_table_data_next_ptr ∧
      st'.mem = st.mem ∧
      st'.efi_conf_table_array
        = st.efi_conf_table_array ++ [(sec.Guid, addr)] ∧
      st'.arraySlots st.efi_conf_table_array.length = some (sec.Guid, addr) := by
  have heq := install_eq_of_explicit profile st key sec addr hp
  refine ⟨heq, ?_⟩
  intro st' h
  rw [heq] at h
  cases h
  exact ⟨rfl, rfl, rfl, by simp [CoreInstallConfigurationTable]⟩

/-- C3 witness: the spec's example — with Registry length 1, installing
`DXE_SERVICE_TABLE` at the explicit address `gDS = 0x10000238` gives
length 2, array slot 1 equal to the (identifier, `gDS`) pair, and an
unchanged cursor and byte memory. -/
theorem install_explicit_address_witness :
    exInstallSome.efi_conf_table_array
      = [("first", 0x500), ("dxe-guid", 0x10000238)] ∧
    exInstallSome.efi_conf_table_array.length = 2 ∧
    exInstallSome.arraySlots 1 = some ("dxe-guid", 0x10000238) ∧
    exInstallSome.efi_conf_table_data_next_ptr = 0x1000 ∧
    exInstallSome.mem = exSt.mem := by
  have h := (install_explicit_address exProfile exSt "DXE_SERVICE_TABLE"
      { Guid := "dxe-guid", TableData := none } 0x10000238 rfl).2
      exInstallSome exInstallSome_ok
  exact ⟨h.2.2.1, by rw [h.2.2.1]; rfl, h.2.2.2, h.1, h.2.1⟩

/-- C4: for every base address and positive fixed sizes the Layout
Planner's five addresses are strictly increasing with each gap exactly
the preceding region's size (the entry-array region spanning 100 entry
sizes). -/
theorem layout_contiguous (sz : Sizes) (gST : Nat)
    (h1 : 0 < sz.systemTable) (h2 : 0 < sz.bootServices)
    (h3 : 0 < sz.runtimeServices) (h4 : 0 < sz.dxeServices)
    (h5 : 0 < sz.configurationTable) :
    gBS_of sz gST = gST + sz.systemTable ∧
    gRT_of sz gST = gBS_of sz gST + sz.bootServices ∧
    gDS_of sz gST = gRT_of sz gST + sz.runtimeServices ∧
    cfg_of sz gST = gDS_of sz gST + sz.dxeServices ∧
    conf_data_of sz gST = cfg_of sz gST + sz.configurationTable * 100 ∧
    gST < gBS_of sz gST ∧ gBS_of sz gST < gRT_of sz gST ∧
    gRT_of sz gST < gDS_of sz gST ∧ gDS_of sz gST < cfg_of sz gST ∧
    cfg_of sz gST < conf_data_of sz gST := by
  refine ⟨rfl, rfl, rfl, rfl, rfl, ?_, ?_, ?_, ?_, ?_⟩ <;>
    simp only [gBS_of, gRT_of, gDS_of, cfg_of, conf_data_of] <;> omega

/-- C4 witness: the spec's example — base `0x10000000` with sizes
`0x80, 0x140, 0x78, 0x58` yields `gBS = 0x10000080`,
`gRT = 0x100001C0`, `gDS = 0x10000238`, `cfgArray = 0x10000290`, and
the full strictly-increasing chain. -/
theorem layout_contiguous_witness :
    (gBS_of exSizes 0x10000000 = 0x10000080 ∧
     gRT_of exSizes 0x10000000 = 0x100001C0 ∧
     gDS_of exSizes 0x10000000 = 0x10000238 ∧
     cfg_of exSizes 0x10000000 = 0x10000290) ∧
    (gBS_of exSizes 0x10000000 = 0x10000000 + exSizes.systemTable ∧
     gRT_of exSizes 0x10000000 = gBS_of exSizes 0x10000000 + exSizes.bootServices ∧
     gDS_of exSizes 0x10000000 = gRT_of exSizes 0x10000000 + exSizes.runtimeServices ∧
     cfg_of exSizes 0x10000000 = gDS_of exSizes 0x10000000 + exSizes.dxeServices ∧
     conf_data_of exSizes 0x10000000
       = cfg_of exSizes 0x10000000 + exSizes.configurationTable * 100 ∧
     0x10000000 < gBS_of exSizes 0x10000000 ∧
     gBS_of exSizes 0x10000000 < gRT_of exSizes 0x10000000 ∧
     gRT_of exSizes 0x10000000 < gDS_of exSizes 0x10000000 ∧
     gDS_of exSizes 0x10000000 < cfg_of exSizes 0x10000000 ∧
     cfg_of exSizes 0x10000000 < conf_data_of exSizes 0x10000000) := by
  refine ⟨⟨by decide, by decide, by decide, by decide⟩, ?_⟩
  exact layout_contiguous exSizes 0x10000000 (by decide) (by decide) (by decide)
    (by decide) (by decide)

/-- C5: the System Table Writer builds the root record with Runtime
Services pointer `gRT`, Boot Services pointer `gBS`, entry count equal
to the final Registry length, configuration-array pointer `cfg`, and
persists that record to guest memory at `gST`. -/
theorem st_init_writes_root_record (sz : Sizes) (profile : Profile)
    (mem0 : Nat → Nat) (gST : Nat) (r : InitResult)
    (h : st_init sz profile mem0 gST = .ok r) :
    r.record.RuntimeServices = gRT_of sz gST ∧
    r.record.BootServices = gBS_of sz gST ∧
    r.record.NumberOfTableEntries = r.state.efi_conf_table_array.length ∧
    r.record.ConfigurationTable = cfg_of sz gST ∧
    r.state.systemTables gST = some r.record := by
  obtain ⟨st1, st2, h1, h2, hrec, hstate⟩ := st_init_ok_inv sz profile mem0 gST r h
  refine ⟨by rw [hrec], by rw [hrec], ?_, by rw [hrec], ?_⟩
  · rw [hrec, hstate]; rfl
  · rw [hstate]; simp [saveTo]

/-- C5 witness: on the example bootstrap the root record holds
`gRT = 0x100001C0`, `gBS = 0x10000080`, the Registry length, and
`cfg = 0x10000290`, and sits in the structured view at `0x10000000`. -/
theorem st_init_writes_root_record_witness :
    exInitResult.record.RuntimeServices = gRT_of exSizes 0x10000000 ∧
    exInitResult.record.BootServices = gBS_of exSizes 0x10000000 ∧
    exInitResult.record.NumberOfTableEntries
      = exInitResult.state.efi_conf_table_array.length ∧
    exInitResult.record.ConfigurationTable = cfg_of exSizes 0x10000000 ∧
    exInitResult.state.systemTables 0x10000000 = some exInitResult.record :=
  st_init_writes_root_record exSizes exProfile (fun _ => 0) 0x10000000
    exInitResult exInit_ok

/-- C6: a successful bootstrap installs exactly two default entries, in
order — first the `HOB_LIST` entry whose pointer is the data-region
base (where its profile payload was copied), then the
`DXE_SERVICE_TABLE` entry whose pointer is the just-initialized `gDS`
region — and the root record, written afterwards, carries entry
count 2. -/
theorem st_init_two_defaults (sz : Sizes) (profile : Profile)
    (mem0 : Nat → Nat) (gST : Nat) (r : InitResult)
    (h : st_init sz profile mem0 gST = .ok r) :
    r.state.efi_conf_table_array.length = 2 ∧
    (r.state.efi_conf_table_array.getD 0 ("", 0)).2 = conf_data_of sz gST ∧
    (r.state.efi_conf_table_array.getD 1 ("", 0)).2 = gDS_of sz gST ∧
    some (r.state.efi_conf_table_array.getD 0 ("", 0)).1
      = (profile "HOB_LIST").map ProfileSection.Guid ∧
    some (r.state.efi_conf_table_array.getD 1 ("", 0)).1
      = (profile "DXE_SERVICE_TABLE").map ProfileSection.Guid ∧
    r.record.NumberOfTableEntries = 2 ∧
    r.state.systemTables gST = some r.record := by
  obtain ⟨st1, st2, h1, h2, hrec, hstate⟩ := st_init_ok_inv sz profile mem0 gST r h
  obtain ⟨hob, payload, data, hpH, hdH, huH, hst1⟩ :=
    install_none_ok_inv profile (st0_of sz mem0 gST) "HOB_LIST" st1 h1
  obtain ⟨dxe, hpD, hst2⟩ :=
    install_some_ok_inv profile st1 "DXE_SERVICE_TABLE" (gDS_of sz gST) st2 h2
  subst hst2
  subst hst1
  refine ⟨?_, ?_, ?_, ?_, ?_, ?_, ?_⟩ <;>
    simp [hstate, hrec, saveTo, CoreInstallConfigurationTable, st0_of, hpH, hpD]

/-- C6 witness: the example bootstrap installs exactly the
`HOB_LIST` entry at the data-region base `0x10000BF0` and the
`DXE_SERVICE_TABLE` entry at `gDS`, and the saved record counts 2. -/
theorem st_init_two_defaults_witness :
    exInitResult.state.efi_conf_table_array.length = 2 ∧
    (exInitResult.state.efi_conf_table_array.getD 0 ("", 0)).2
      = conf_data_of exSizes 0x10000000 ∧
    (exInitResult.state.efi_conf_table_array.getD 1 ("", 0)).2
      = gDS_of exSizes 0x10000000 ∧
    some (exInitResult.state.efi_conf_table_array.getD 0 ("", 0)).1
      = (exProfile "HOB_LIST").map ProfileSection.Guid ∧
    some (exInitResult.state.efi_conf_table_array.getD 1 ("", 0)).1
      = (exProfile "DXE_SERVICE_TABLE").map ProfileSection.Guid ∧
    exInitResult.record.NumberOfTableEntries = 2 ∧
    exInitResult.state.systemTables 0x10000000 = some exInitResult.record :=
  st_init_two_defaults exSizes exProfile (fun _ => 0) 0x10000000
    exInitResult exInit_ok

/-- C7 counterexample: with the Registry already at the fixed 100-entry
capacity, `install_configuration_table` does not fail — it succeeds,
growing the list to 101 entries and writing on-memory array index 100,
one slot past the reserved region. -/
theorem install_at_capacity_no_failure :
    (install_configuration_table exProfile fullSt "DXE_SERVICE_TABLE"
        (some 7)).map (fun st => st.efi_conf_table_array.length) = .ok 101 ∧
    (install_configuration_table exProfile fullSt "DXE_SERVICE_TABLE"
        (some 7)).map (fun st => st.arraySlots 100)
      = .ok (some ("dxe-guid", 7)) := by
  constructor <;> rfl

/-- C7 (amended): the baseline enforces no capacity bound — any install
performed when the Registry list already holds 100 entries that
otherwise succeeds grows the list to 101 entries and fills on-memory
array slot 100, past the 100-entry reserved region. -/
theorem install_at_capacity_overflows (profile : Profile) (st : LoaderState)
    (key : String) (t : Option Nat) (st' : LoaderState)
    (h : install_configuration_table profile st key t = .ok st')
    (hlen : st.efi_conf_table_array.length = 100) :
    st'.efi_conf_table_array.length = 101 ∧
    (st'.arraySlots 100).isSome = true := by
  obtain ⟨guid, ptr, hl, ha, -, -, -⟩ := install_ok_inv profile st key t st' h
  constructor
  · rw [hl, List.length_append, List.length_singleton, hlen]
  · simp [ha, hlen]

/-- C7 amended-claim witness: installing on the concrete full Registry
yields 101 entries and an occupied array slot 100. -/
theorem install_at_capacity_overflows_witness :
    fullInstall.efi_conf_table_array.length = 101 ∧
    (fullInstall.arraySlots 100).isSome = true :=
  install_at_capacity_overflows exProfile fullSt "DXE_SERVICE_TABLE" (some 7)
    fullInstall fullInstall_ok (by decide)

/-- C8: a name with no profile section fails with the configuration
lookup error; the exception is raised before any state mutation, and in
this pure embedding an error result carries no successor state, so the
Registry list, cursor and memory of the caller are exactly the pre-call
ones. -/
theorem install_missing_section_fails (profile : Profile) (st : LoaderState)
    (key : String) (t : Option Nat) (hp : profile key = none) :
    install_configuration_table profile st key t =
      .error .ConfigurationNotFound ∧
    ∀ st', install_configuration_table profile st key t ≠ .ok st' := by
  have heq := install_eq_of_not_found profile st key t hp
  refine ⟨heq, ?_⟩
  intro st' hcon
  rw [heq] at hcon
  cases hcon

/-- C8 witness: the example profile has no section named `MISSING`, so
installing it fails with `ConfigurationNotFound`. -/
theorem install_missing_section_fails_witness :
    install_configuration_table exProfile exSt "MISSING" none =
      .error .ConfigurationNotFound :=
  (install_missing_section_fails exProfile exSt "MISSING" none rfl).1

/-- C9: a payload-copy install whose profile payload is not well-formed
hex fails with the payload decode error; decoding happens before the
memory write and the cursor advance, and in this pure embedding an
error result carries no successor state, so no byte is written, the
cursor does not advance, and the Registry list is unchanged. -/
theorem install_bad_payload_fails (profile : Profile) (st : LoaderState)
    (key : String) (sec : ProfileSection) (payload : String)
    (hp : profile key = some sec) (hd : sec.TableData = some payload)
    (hu : unhexlify payload = none) :
    install_configuration_table profile st key none =
      .error .PayloadDecodeError ∧
    ∀ st', install_configuration_table profile st key none ≠ .ok st' := by
  have heq := install_eq_of_bad_payload profile st key sec payload hp hd hu
  refine ⟨heq, ?_⟩
  intro st' hcon
  rw [heq] at hcon
  cases hcon

/-- C9 witness: a `HOB_LIST` payload of `ZZ` is rejected by the hex
decoder, so the install fails with `PayloadDecodeError`. -/
theorem install_bad_payload_fails_witness :
    install_configuration_table badProfile exSt "HOB_LIST" none =
      .error .PayloadDecodeError :=
  (install_bad_payload_fails badProfile exSt "HOB_LIST"
    { Guid := "hob-guid", TableData := some "ZZ" } "ZZ" rfl rfl (by decide)).1

/-- C10: the explicit-address path never reads the section's payload
field — a section holding only a vendor identifier installs
successfully with an explicit address, while the very same section
fails in the payload-copy path (the `TableData` lookup raises). -/
theorem install_explicit_ignores_payload (profile : Profile)
    (st : LoaderState) (key : String) (g : String) (addr : Nat)
    (hp : profile key = some { Guid := g, TableData := none }) :
    install_configuration_table profile st key (some addr) =
      .ok (CoreInstallConfigurationTable st g addr) ∧
    install_configuration_table profile st key none =
      .error .PayloadMissing := by
  constructor
  · exact install_eq_of_explicit profile st key _ addr hp
  · exact install_eq_of_no_payload profile st key _ hp rfl

/-- C10 witness: the `DXE_SERVICE_TABLE` section defines only a vendor
identifier; installing it with an explicit address succeeds and
installing it through the payload-copy path fails. -/
theorem install_explicit_ignores_payload_witness :
    install_configuration_table exProfile exSt "DXE_SERVICE_TABLE"
      (some 0x10000238) =
      .ok (CoreInstallConfigurationTable exSt "dxe-guid" 0x10000238) ∧
    install_configuration_table exProfile exSt "DXE_SERVICE_TABLE" none =
      .error .PayloadMissing :=
  install_explicit_ignores_payload exProfile exSt "DXE_SERVICE_TABLE"
    "dxe-guid" 0x10000238 rfl

end UefiSt
